import Mathlib

/-!
Shallow embedding of the KPI/trend aggregation and ensemble-forecast pipeline of
the Supply-Chain-Resilience-and-Optimization repository.

Numeric values that the Python code holds as floats are modelled as rationals
(`ℚ`); a float value that the Python runtime would render as NaN (division of
zero by zero in numpy) is modelled as `Option.none`.  Sources:
  - src/backend/services/analytics_service.py  (`_calculate_trend_metrics`)
  - src/backend/services/ml_service.py         (`_prepare_demand_features`,
    `_predict_with_lstm`, `_predict_with_random_forest`,
    `_predict_with_gradient_boosting`, `_create_ensemble_forecast`,
    `_calculate_confidence_intervals`)
  - src/models/schemas.py                      (`RiskLevel`)
-/

namespace SupplyChain

/-- Arithmetic mean of a list, `np.mean`.  (For the empty list `ℚ` gives
`0 / 0 = 0`; every use below is guarded so the list is nonempty.) -/
def mean (xs : List ℚ) : ℚ := xs.sum / (xs.length : ℚ)

/-- Sample variance with `ddof = 1` (divisor `n - 1`), the square of what
pandas `Series.rolling(w).std()` computes. -/
def sampleVar (xs : List ℚ) : ℚ :=
  (xs.map (fun x => (x - mean xs) ^ 2)).sum / ((xs.length : ℚ) - 1)

/-- Population variance (divisor `n`).  Stated for comparison with
`sampleVar`; this is the quantity the spec's words describe ("population
standard deviation" is its square root). -/
def populationVar (xs : List ℚ) : ℚ :=
  (xs.map (fun x => (x - mean xs) ^ 2)).sum / (xs.length : ℚ)

/-! ### Trend metrics (`_calculate_trend_metrics`, analytics_service.py:503) -/

/-- `values = [item.get("value", 0) for item in data]`: each record's `"value"`
entry is modelled as an `Option ℚ`; a record without the key contributes `0`. -/
def valuesOf (data : List (Option ℚ)) : List ℚ := data.map (fun item => item.getD 0)

/-- `np.mean(values[-7:]) if len(values) >= 7 else np.mean(values[-len(values)//2:])`.
Python floor division gives `(-n)//2 = -⌈n/2⌉`, so the second slice keeps the
last `⌈n/2⌉` elements, i.e. drops the first `n / 2` (Nat division). -/
def recentAvg (v : List ℚ) : ℚ :=
  if 7 ≤ v.length then mean (v.drop (v.length - 7)) else mean (v.drop (v.length / 2))

/-- `np.mean(values[:len(values)//2]) if len(values) >= 2 else values[0]`.
The `else` branch is unreachable in the source: the caller has already
returned the insufficient-data sentinel when the length is below 2. -/
def earlierAvg (v : List ℚ) : ℚ :=
  if 2 ≤ v.length then mean (v.take (v.length / 2)) else v.headD 0

/-- `((recent_avg - earlier_avg) / earlier_avg * 100) if earlier_avg != 0 else 0`. -/
def changePct (v : List ℚ) : ℚ :=
  if earlierAvg v ≠ 0 then (recentAvg v - earlierAvg v) / earlierAvg v * 100 else 0

/-- `"up" if change_pct > 0 else "down" if change_pct < 0 else "stable"`. -/
def trendDirection (c : ℚ) : String :=
  if 0 < c then "up" else if c < 0 then "down" else "stable"

/-- Result of `_calculate_trend_metrics`: either the `{"trend":
"insufficient_data"}` sentinel or the metrics dict.  The `volatility` entry
(`np.std(values)`, an irrational square root) is outside every claim and is
not carried; `trendStrength` is `abs(change_pct)`. -/
inductive TrendMetrics where
  | insufficientData : TrendMetrics
  | metrics (trendDir : String) (changePercentage : ℚ) (trendStrength : ℚ) : TrendMetrics
deriving DecidableEq

/-- `_calculate_trend_metrics` (analytics_service.py lines 503-521). -/
def calculateTrendMetrics (data : List (Option ℚ)) : TrendMetrics :=
  if data.length < 2 then TrendMetrics.insufficientData
  else
    TrendMetrics.metrics (trendDirection (changePct (valuesOf data)))
      (changePct (valuesOf data)) |changePct (valuesOf data)|

/-! ### Ensemble forecast (`_create_ensemble_forecast`, ml_service.py:577) -/

/-- One generator's result dict: `predictions` is present exactly when the
generator succeeded (failed generators return an `{"error": ...}` dict with no
`"predictions"` key); `confidence` may be absent, in which case the combiner
defaults it to `0.8`. -/
structure GenResult where
  predictions : Option (List ℚ)
  confidence : Option ℚ
deriving DecidableEq

/-- The generators whose dict contains a `"predictions"` key — the ones the
combination loop keeps. -/
def successfulForecasts (fs : List GenResult) : List GenResult :=
  fs.filter (fun f => f.predictions.isSome)

/-- `predictions_list`: the prediction sequences of the successful generators,
in registry order. -/
def predictionsList (fs : List GenResult) : List (List ℚ) :=
  fs.filterMap (fun f => f.predictions)

/-- `weights`: `forecast.get("confidence", 0.8)` for each successful generator. -/
def weightsList (fs : List GenResult) : List ℚ :=
  (successfulForecasts fs).map (fun f => f.confidence.getD (4/5))

/-- `weights = np.array(weights) / sum(weights)`. -/
def normalizeWeights (ws : List ℚ) : List ℚ :=
  ws.map (fun w => w / ws.sum)

/-- One day of the weighted-average loop:
`max(sum(w * p for w, p in zip(weights, day_predictions)), 0)`.
When `sum(weights) == 0` the numpy division yields NaN weights (0/0), the
weighted sum is NaN, and Python's `max(nan, 0)` returns NaN — modelled as
`none`. -/
def ensembleDay (ws : List ℚ) (dayPreds : List ℚ) : Option ℚ :=
  if ws.sum = 0 then none
  else some (max (List.zipWith (fun w p => w * p) (normalizeWeights ws) dayPreds).sum 0)

/-- `_create_ensemble_forecast` (ml_service.py lines 577-601).  `noise d`
stands for the day-d draw `np.random.normal(0, 10)` of the no-successful-
generator fallback branch.  The source indexes `pred[day]`; every generator
returns exactly `days` predictions, so the index is in range — `List.getD`
with default `0` models it. -/
def createEnsembleForecast (fs : List GenResult) (days : ℕ) (noise : ℕ → ℚ) :
    List (Option ℚ) :=
  if predictionsList fs = [] then
    (List.range days).map (fun d => some (100 + noise d))
  else
    (List.range days).map (fun d =>
      ensembleDay (weightsList fs) ((predictionsList fs).map (fun p => p.getD d 0)))

/-! ### The three generators (ml_service.py lines 508-575).  Each draws one
fresh value per day from the global numpy random stream; `z d` is that day-d
draw (for the LSTM `np.random.normal(0, 10)`, for the random forest
`np.random.normal(5, 8)`, for gradient boosting `np.random.normal(3, 7)`). -/

/-- `_predict_with_lstm`: `max(100 + draw, 0)` per day, confidence 0.85. -/
def predictWithLSTM (days : ℕ) (z : ℕ → ℚ) : GenResult :=
  ⟨some ((List.range days).map (fun d => max (100 + z d) 0)), some (85/100)⟩

/-- `_predict_with_random_forest`: `max(95 + draw, 0)` per day, confidence 0.80. -/
def predictWithRandomForest (days : ℕ) (z : ℕ → ℚ) : GenResult :=
  ⟨some ((List.range days).map (fun d => max (95 + z d) 0)), some (80/100)⟩

/-- `_predict_with_gradient_boosting`: `max(102 + draw, 0)` per day,
confidence 0.82. -/
def predictWithGradientBoosting (days : ℕ) (z : ℕ → ℚ) : GenResult :=
  ⟨some ((List.range days).map (fun d => max (102 + z d) 0)), some (82/100)⟩

/-! ### Confidence intervals (`_calculate_confidence_intervals`, ml_service.py:603) -/

/-- `std_error = 5.0`, the hard-coded standard error. -/
def stdError : ℚ := 5

/-- The dict returned by `_calculate_confidence_intervals`. -/
structure ConfidenceIntervals where
  lowerBound : List ℚ
  upperBound : List ℚ
  confidenceLevel : ℚ
deriving DecidableEq

/-- `_calculate_confidence_intervals` (ml_service.py lines 603-616):
`lower = f - 1.96 * std_error`, `upper = f + 1.96 * std_error`
(`1.96 = 49/25`). -/
def calculateConfidenceIntervals (forecasts : List ℚ) : ConfidenceIntervals :=
  ⟨forecasts.map (fun f => f - 49/25 * stdError),
   forecasts.map (fun f => f + 49/25 * stdError),
   95/100⟩

/-! ### Rolling-window statistics (`_prepare_demand_features`, ml_service.py:496) -/

/-- The window `value[i-w+1 .. i]` as a list slice. -/
def windowSlice (xs : List ℚ) (w i : ℕ) : List ℚ :=
  (xs.take (i + 1)).drop (i + 1 - w)

/-- pandas `Series.rolling(window).mean()` at index `i`: NaN (`none`) until a
full window of `w` observations is available. -/
def rollingMean (xs : List ℚ) (w i : ℕ) : Option ℚ :=
  if w ≤ i + 1 ∧ i < xs.length then some (mean (windowSlice xs w i)) else none

/-- pandas `Series.rolling(window).std()` at index `i`, squared: pandas uses
`ddof = 1` (sample variance, divisor `w - 1`), and additionally yields NaN for
`w = 1` (zero degrees of freedom).  The square is modelled so that everything
stays rational; the rolling standard deviation is its (monotone) square root. -/
def rollingVar (xs : List ℚ) (w i : ℕ) : Option ℚ :=
  if 2 ≤ w ∧ w ≤ i + 1 ∧ i < xs.length then some (sampleVar (windowSlice xs w i)) else none

/-! ### Risk-level bucketing -/

/-- `RiskLevel` enum from src/models/schemas.py lines 16-20. -/
inductive RiskLevel where
  | low | medium | high | critical
deriving DecidableEq

/-- Order of the risk levels, low to critical. -/
def riskRank : RiskLevel → ℕ
  | RiskLevel.low => 0
  | RiskLevel.medium => 1
  | RiskLevel.high => 2
  | RiskLevel.critical => 3

/-- Modelled from the spec: `_determine_risk_level` is invoked at
src/backend/services/analytics_service.py:335 on a composite category score but
its definition is nowhere under src/; the spec (§4.3 Contract B) fixes the
bucketing: `LOW` if score < 25, `MEDIUM` if < 50, `HIGH` if < 75, `CRITICAL`
otherwise. -/
def determineRiskLevel (score : ℚ) : RiskLevel :=
  if score < 25 then RiskLevel.low
  else if score < 50 then RiskLevel.medium
  else if score < 75 then RiskLevel.high
  else RiskLevel.critical

/-! ## Helper lemmas -/

theorem sum_map_div (ws : List ℚ) (c : ℚ) :
    (ws.map (fun w => w / c)).sum = ws.sum / c := by
  induction ws with
  | nil => simp
  | cons w ws ih => simp [ih, add_div]

theorem sum_normalizeWeights (ws : List ℚ) (h : ws.sum ≠ 0) :
    (normalizeWeights ws).sum = 1 := by
  rw [normalizeWeights, sum_map_div, div_self h]

theorem length_predictionsList (fs : List GenResult) :
    (predictionsList fs).length = (weightsList fs).length := by
  induction fs with
  | nil => rfl
  | cons f fs ih =>
    cases hp : f.predictions with
    | none =>
      simpa [predictionsList, weightsList, successfulForecasts,
        List.filterMap_cons, List.filter_cons, hp] using ih
    | some p =>
      simpa [predictionsList, weightsList, successfulForecasts,
        List.filterMap_cons, List.filter_cons, hp] using ih

theorem predictionsList_filter (fs : List GenResult) :
    predictionsList (fs.filter (fun f => f.predictions.isSome)) = predictionsList fs := by
  induction fs with
  | nil => rfl
  | cons f fs ih =>
    cases hp : f.predictions with
    | none =>
      simpa [predictionsList, List.filter_cons, List.filterMap_cons, hp] using ih
    | some p =>
      simpa [predictionsList, List.filter_cons, List.filterMap_cons, hp] using ih

theorem weightsList_filter (fs : List GenResult) :
    weightsList (fs.filter (fun f => f.predictions.isSome)) = weightsList fs := by
  simp only [weightsList, successfulForecasts, List.filter_filter, Bool.and_self]

theorem getD_range_map {α : Type} (n d : ℕ) (f : ℕ → α) (a : α) (h : d < n) :
    ((List.range n).map f).getD d a = f d := by
  rw [List.getD_eq_getElem?_getD, List.getElem?_map, List.getElem?_range h]
  rfl

theorem getD_map_lt {α β : Type} (f : α → β) (l : List α) (d : ℕ) (h : d < l.length)
    (a : α) (b : β) : (l.map f).getD d b = f (l.getD d a) := by
  rw [List.getD_eq_getElem?_getD, List.getElem?_map, List.getElem?_eq_getElem h,
    List.getD_eq_getElem?_getD, List.getElem?_eq_getElem h]
  rfl

theorem mean_replicate_zero (n : ℕ) : mean (List.replicate n (0 : ℚ)) = 0 := by
  simp [mean, List.sum_replicate]

/-! ## Claim theorems -/

/-- **C1** (ensemble combination correctness): for every set of generator
forecasts whose confidence weights are nonnegative with at least one positive,
the normalized weights sum to 1 (`w_i = conf_i / Σ conf_j`), and the combined
point prediction at each day `d` is the weighted sum of the generators' day-d
predictions, floored at 0. -/
theorem ensemble_combination_correct (fs : List GenResult) (days : ℕ) (noise : ℕ → ℚ)
    (hw : ∀ w ∈ weightsList fs, 0 ≤ w) (hpos : ∃ w ∈ weightsList fs, 0 < w) :
    (normalizeWeights (weightsList fs)).sum = 1 ∧
    ∀ d, d < days →
      (createEnsembleForecast fs days noise).getD d none =
        some (max (List.zipWith (fun w p => w * p) (normalizeWeights (weightsList fs))
          ((predictionsList fs).map (fun p => p.getD d 0))).sum 0) := by
  obtain ⟨w, hmem, hwpos⟩ := hpos
  have hsum : 0 < (weightsList fs).sum :=
    lt_of_lt_of_le hwpos (List.single_le_sum hw w hmem)
  have hne : predictionsList fs ≠ [] := by
    intro h
    have h0 : (weightsList fs).length = 0 := by rw [← length_predictionsList, h]; rfl
    rw [List.eq_nil_of_length_eq_zero h0] at hmem
    exact List.not_mem_nil _ hmem
  refine ⟨sum_normalizeWeights _ hsum.ne', ?_⟩
  intro d hd
  simp only [createEnsembleForecast]
  rw [if_neg hne, getD_range_map _ _ _ _ hd, ensembleDay, if_neg hsum.ne']

/-- Witness for C1, the spec's Scenario C: confidences `[0.9, 0.8, 0.82]` and
day-0 predictions `[100, 95, 102]` give normalized weights
`[5/14, 20/63, 41/126] ≈ [0.357, 0.317, 0.325]` summing to 1, and combined
point `6241/63 ≈ 99.06`. -/
theorem ensemble_combination_correct_witness :
    (normalizeWeights (weightsList
      [⟨some [100], some (9/10)⟩, ⟨some [95], some (4/5)⟩, ⟨some [102], some (41/50)⟩])).sum = 1 ∧
    (createEnsembleForecast
      [⟨some [100], some (9/10)⟩, ⟨some [95], some (4/5)⟩, ⟨some [102], some (41/50)⟩]
      1 (fun _ => 0)).getD 0 none = some (6241/63) ∧
    normalizeWeights (weightsList
      [⟨some [100], some (9/10)⟩, ⟨some [95], some (4/5)⟩, ⟨some [102], some (41/50)⟩]) =
      [5/14, 20/63, 41/126] ∧
    |(5:ℚ)/14 - 357/1000| < 1/1000 ∧ |(20:ℚ)/63 - 317/1000| < 1/1000 ∧
    |(41:ℚ)/126 - 325/1000| < 1/1000 ∧ |(6241:ℚ)/63 - 99| < 1/10 := by
  have h := ensemble_combination_correct
    [⟨some [100], some (9/10)⟩, ⟨some [95], some (4/5)⟩, ⟨some [102], some (41/50)⟩]
    1 (fun _ => 0)
    (by norm_num [weightsList, successfulForecasts, List.filter])
    ⟨9/10, by norm_num [weightsList, successfulForecasts, List.filter], by norm_num⟩
  refine ⟨h.1, ?_, by norm_num [normalizeWeights, weightsList, successfulForecasts, List.filter],
    by norm_num [abs_lt], by norm_num [abs_lt],
    by norm_num [abs_lt], by norm_num [abs_lt]⟩
  rw [h.2 0 (by norm_num)]
  norm_num [normalizeWeights, weightsList, predictionsList, successfulForecasts,
    List.filter, List.filterMap, max_def]

/-- **C3** counterexample: two generators both report confidence 0 with day-0
predictions 100 and 50; the claimed unweighted-average fallback would give 75,
but the code divides the weights by `sum(weights) == 0` (numpy NaN, modelled
`none`), so the combined day-0 prediction is NaN, not 75. -/
theorem zero_confidence_fallback_cex :
    (createEnsembleForecast [⟨some [100], some 0⟩, ⟨some [50], some 0⟩] 1
      (fun _ => 0)).getD 0 none = none ∧
    (createEnsembleForecast [⟨some [100], some 0⟩, ⟨some [50], some 0⟩] 1
      (fun _ => 0)).getD 0 none ≠ some ((100 + 50) / 2) := by
  constructor
  · norm_num [createEnsembleForecast, predictionsList, weightsList, successfulForecasts,
      ensembleDay, normalizeWeights, List.filter, List.filterMap, List.range_succ]
    simp
  · norm_num [createEnsembleForecast, predictionsList, weightsList, successfulForecasts,
      ensembleDay, normalizeWeights, List.filter, List.filterMap, List.range_succ]
    simp

/-- **C3** (amended): when every successful generator reports confidence 0,
`_create_ensemble_forecast` divides the weight vector by zero (numpy NaN,
modelled `none`); every day's combined prediction is NaN — the unweighted
average is never computed, since no such fallback exists in the code. -/
theorem zero_confidence_gives_nan (fs : List GenResult) (days : ℕ) (noise : ℕ → ℚ)
    (hne : predictionsList fs ≠ []) (hz : ∀ w ∈ weightsList fs, w = 0) :
    ∀ d, d < days → (createEnsembleForecast fs days noise).getD d none = none := by
  intro d hd
  have hs : (weightsList fs).sum = 0 := List.sum_eq_zero hz
  simp only [createEnsembleForecast]
  rw [if_neg hne, getD_range_map _ _ _ _ hd, ensembleDay, if_pos hs]

/-- Witness for the amended C3 at the concrete all-zero-confidence input. -/
theorem zero_confidence_gives_nan_witness :
    (createEnsembleForecast [⟨some [100], some 0⟩, ⟨some [50], some 0⟩] 1
      (fun _ => 0)).getD 0 none = none :=
  zero_confidence_gives_nan [⟨some [100], some 0⟩, ⟨some [50], some 0⟩] 1 (fun _ => 0)
    (by simp [predictionsList, List.filterMap])
    (by norm_num [weightsList, successfulForecasts, List.filter])
    0 (by norm_num)

/-- **C4** counterexample: with a single, failed generator (no `"predictions"`
key) the code does not raise any error; it returns a synthetic three-day
fallback forecast `[100 + noise, ...]` — here, with zero noise,
`[100, 100, 100]`.  No `NoGeneratorsAvailableError` exists in the code. -/
theorem no_generators_error_cex :
    createEnsembleForecast [⟨none, some (9/10)⟩] 3 (fun _ => 0) =
      [some 100, some 100, some 100] ∧
    (createEnsembleForecast [⟨none, some (9/10)⟩] 3 (fun _ => 0)).length = 3 := by
  constructor <;>
    norm_num [createEnsembleForecast, predictionsList, List.filterMap, List.range_succ]

/-- **C4** (amended): failed generators are dropped and the remaining weights
renormalized (the combination depends only on the successful generators); when
zero generators succeed the code returns the synthetic fallback forecast
`[100 + np.random.normal(0,10) for _ in range(days)]` instead of failing. -/
theorem generator_failure_semantics (fs : List GenResult) (days : ℕ) (noise : ℕ → ℚ) :
    createEnsembleForecast fs days noise =
      createEnsembleForecast (fs.filter (fun f => f.predictions.isSome)) days noise ∧
    (predictionsList fs = [] →
      createEnsembleForecast fs days noise =
        (List.range days).map (fun d => some (100 + noise d))) := by
  constructor
  · simp only [createEnsembleForecast, predictionsList_filter, weightsList_filter]
  · intro h
    simp only [createEnsembleForecast]
    rw [if_pos h]

/-- Witness for the amended C4: a failed generator is dropped (the ensemble of
a failed plus a successful generator equals the ensemble of the successful one
alone), and an input with no successful generator yields the noise-based
fallback forecast. -/
theorem generator_failure_semantics_witness :
    createEnsembleForecast [⟨none, some 1⟩, ⟨some [80], some (1/2)⟩] 1 (fun _ => 0) =
      createEnsembleForecast [⟨some [80], some (1/2)⟩] 1 (fun _ => 0) ∧
    createEnsembleForecast ([] : List GenResult) 2 (fun _ => 3) = [some 103, some 103] := by
  constructor
  · exact (generator_failure_semantics [⟨none, some 1⟩, ⟨some [80], some (1/2)⟩] 1
      (fun _ => 0)).1.trans (by norm_num [List.filter])
  · exact ((generator_failure_semantics ([] : List GenResult) 2 (fun _ => 3)).2
      (by norm_num [predictionsList, List.filterMap])).trans
      (by norm_num [List.range_succ])

/-- **C2** (trend analysis correctness): for every series of length ≥ 2 the
trend computation returns the metrics record whose change percentage is
`(recent_avg - earlier_avg) / earlier_avg * 100` (0 when `earlier_avg = 0`),
where `recent_avg` is the mean of the last 7 points (the last `⌈n/2⌉` points —
the complement of the first half — when `n < 7`), `earlier_avg` is the mean of
the first `⌊n/2⌋` points, and the direction is `"up"`, `"down"` or `"stable"`
by the sign of the change; for a series of length < 2 it returns the
insufficient-data sentinel. -/
theorem trend_metrics_correct (data : List (Option ℚ)) (h : 2 ≤ data.length) :
    (valuesOf data).length = data.length ∧
    calculateTrendMetrics data =
      TrendMetrics.metrics (trendDirection (changePct (valuesOf data)))
        (changePct (valuesOf data)) |changePct (valuesOf data)| ∧
    (7 ≤ data.length →
      recentAvg (valuesOf data) = mean ((valuesOf data).drop (data.length - 7))) ∧
    (data.length < 7 →
      recentAvg (valuesOf data) = mean ((valuesOf data).drop (data.length / 2))) ∧
    earlierAvg (valuesOf data) = mean ((valuesOf data).take (data.length / 2)) ∧
    (earlierAvg (valuesOf data) ≠ 0 →
      changePct (valuesOf data) =
        (recentAvg (valuesOf data) - earlierAvg (valuesOf data)) /
          earlierAvg (valuesOf data) * 100) ∧
    (earlierAvg (valuesOf data) = 0 → changePct (valuesOf data) = 0) ∧
    (0 < changePct (valuesOf data) →
      trendDirection (changePct (valuesOf data)) = "up") ∧
    (changePct (valuesOf data) < 0 →
      trendDirection (changePct (valuesOf data)) = "down") ∧
    (changePct (valuesOf data) = 0 →
      trendDirection (changePct (valuesOf data)) = "stable") ∧
    (∀ d : List (Option ℚ), d.length < 2 →
      calculateTrendMetrics d = TrendMetrics.insufficientData) := by
  have hv : (valuesOf data).length = data.length := by simp [valuesOf]
  refine ⟨hv, ?_, ?_, ?_, ?_, ?_, ?_, ?_, ?_, ?_, ?_⟩
  · simp only [calculateTrendMetrics]
    rw [if_neg (by omega)]
  · intro h7
    simp only [recentAvg, hv]
    rw [if_pos h7]
  · intro h7
    simp only [recentAvg, hv]
    rw [if_neg (by omega)]
  · simp only [earlierAvg, hv]
    rw [if_pos h]
  · intro hne
    simp only [changePct]
    rw [if_pos hne]
  · intro h0
    simp only [changePct]
    rw [if_neg (by simp [h0])]
  · intro hc
    simp only [trendDirection]
    rw [if_pos hc]
  · intro hc
    simp only [trendDirection]
    rw [if_neg (by linarith), if_pos hc]
  · intro hc
    simp only [trendDirection]
    rw [if_neg (by simp [hc]), if_neg (by simp [hc])]
  · intro d hd
    simp only [calculateTrendMetrics]
    rw [if_pos hd]

/-- Witness for C2, the spec's Scenario A: the 14-point series of seven 100s
followed by seven 150s yields `recent_avg = 150`, `earlier_avg = 100`,
`change_pct = 50`, direction `"up"`; and a length-1 series yields the
insufficient-data sentinel (Scenario B). -/
theorem trend_metrics_correct_witness :
    calculateTrendMetrics
        (List.replicate 7 (some (100:ℚ)) ++ List.replicate 7 (some 150)) =
      TrendMetrics.metrics "up" 50 50 ∧
    recentAvg (valuesOf
      (List.replicate 7 (some (100:ℚ)) ++ List.replicate 7 (some 150))) = 150 ∧
    earlierAvg (valuesOf
      (List.replicate 7 (some (100:ℚ)) ++ List.replicate 7 (some 150))) = 100 ∧
    changePct (valuesOf
      (List.replicate 7 (some (100:ℚ)) ++ List.replicate 7 (some 150))) = 50 ∧
    calculateTrendMetrics [some (42:ℚ)] = TrendMetrics.insufficientData := by
  have h := trend_metrics_correct
    (List.replicate 7 (some (100:ℚ)) ++ List.replicate 7 (some 150)) (by norm_num)
  refine ⟨h.2.1.trans ?_, ?_, ?_, ?_, h.2.2.2.2.2.2.2.2.2.2 [some (42:ℚ)] (by norm_num)⟩ <;>
    norm_num [calculateTrendMetrics, valuesOf, changePct, earlierAvg, recentAvg, mean,
      trendDirection, List.replicate]

/-- **C9** (implicit — silent defaulting of missing values): for every input
list of length ≥ 2 whose records all lack the `"value"` key, every missing
value is read as 0 (`item.get("value", 0)`), so the computation raises no
error and returns change percentage 0 with direction `"stable"`. -/
theorem trend_missing_values_default (data : List (Option ℚ)) (h2 : 2 ≤ data.length)
    (hall : ∀ x ∈ data, x = none) :
    valuesOf data = List.replicate data.length 0 ∧
    calculateTrendMetrics data = TrendMetrics.metrics "stable" 0 0 := by
  have hv : valuesOf data = List.replicate data.length 0 := by
    rw [List.eq_replicate_iff]
    refine ⟨by simp [valuesOf], ?_⟩
    intro b hb
    simp only [valuesOf, List.mem_map] at hb
    obtain ⟨x, hx, rfl⟩ := hb
    rw [hall x hx]
    rfl
  have hea : earlierAvg (valuesOf data) = 0 := by
    rw [hv, earlierAvg]
    rw [if_pos (by simp; omega), List.take_replicate]
    exact mean_replicate_zero _
  have hcp : changePct (valuesOf data) = 0 := by
    rw [changePct, if_neg (by simp [hea])]
  refine ⟨hv, ?_⟩
  rw [calculateTrendMetrics, if_neg (by omega), hcp]
  simp [trendDirection]

/-- Witness for C9: the two-record list with both `"value"`s missing. -/
theorem trend_missing_values_default_witness :
    valuesOf [none, none] = List.replicate 2 (0:ℚ) ∧
    calculateTrendMetrics [none, none] = TrendMetrics.metrics "stable" 0 0 :=
  trend_missing_values_default [none, none] (by norm_num) (by simp)

/-- **C5** (confidence-interval containment): there is one standard error σ
(the hard-coded 5.0), used for every day of one call, with
`lower[d] = point[d] - 1.96·σ` and `upper[d] = point[d] + 1.96·σ`; hence
`lower[d] ≤ point[d] ≤ upper[d]` for every day `d`. -/
theorem confidence_interval_containment :
    ∃ σ : ℚ, 0 ≤ σ ∧ ∀ (forecasts : List ℚ) (d : ℕ), d < forecasts.length →
      (calculateConfidenceIntervals forecasts).lowerBound.getD d 0 =
        forecasts.getD d 0 - 49/25 * σ ∧
      (calculateConfidenceIntervals forecasts).upperBound.getD d 0 =
        forecasts.getD d 0 + 49/25 * σ ∧
      (calculateConfidenceIntervals forecasts).lowerBound.getD d 0 ≤ forecasts.getD d 0 ∧
      forecasts.getD d 0 ≤ (calculateConfidenceIntervals forecasts).upperBound.getD d 0 := by
  refine ⟨stdError, by norm_num [stdError], ?_⟩
  intro forecasts d hd
  have hl : (calculateConfidenceIntervals forecasts).lowerBound.getD d 0 =
      forecasts.getD d 0 - 49/25 * stdError := by
    simp only [calculateConfidenceIntervals]
    exact getD_map_lt _ _ _ hd 0 0
  have hu : (calculateConfidenceIntervals forecasts).upperBound.getD d 0 =
      forecasts.getD d 0 + 49/25 * stdError := by
    simp only [calculateConfidenceIntervals]
    exact getD_map_lt _ _ _ hd 0 0
  refine ⟨hl, hu, ?_, ?_⟩
  · rw [hl]; norm_num [stdError]
  · rw [hu]; norm_num [stdError]

/-- Witness for C5 at the one-day forecast `[5]`. -/
theorem confidence_interval_containment_witness :
    (calculateConfidenceIntervals [(5:ℚ)]).lowerBound.getD 0 0 ≤ 5 ∧
    (5:ℚ) ≤ (calculateConfidenceIntervals [(5:ℚ)]).upperBound.getD 0 0 := by
  obtain ⟨σ, hσ, h⟩ := confidence_interval_containment
  have h5 := h [(5:ℚ)] 0 (by norm_num)
  exact ⟨by simpa using h5.2.2.1, by simpa using h5.2.2.2⟩

/-- **C10** (implicit — negative lower confidence bound): the lower bound is
never floored at 0: `lower[d] = point[d] - 1.96 · 5.0 = point[d] - 49/5`
exactly, so whenever `point[d] < 9.8 = 49/5` the reported lower bound is
negative. -/
theorem lower_bound_not_floored (forecasts : List ℚ) (d : ℕ) (h : d < forecasts.length) :
    (calculateConfidenceIntervals forecasts).lowerBound.getD d 0 =
      forecasts.getD d 0 - 49/5 ∧
    (forecasts.getD d 0 < 49/5 →
      (calculateConfidenceIntervals forecasts).lowerBound.getD d 0 < 0) := by
  have hl : (calculateConfidenceIntervals forecasts).lowerBound.getD d 0 =
      forecasts.getD d 0 - 49/25 * stdError := by
    simp only [calculateConfidenceIntervals]
    exact getD_map_lt _ _ _ h 0 0
  constructor
  · rw [hl]; norm_num [stdError]
  · intro hlt
    rw [hl, stdError]
    linarith

/-- Witness for C10: a day-0 point forecast of 5 yields the negative lower
bound `5 - 49/5 = -24/5`. -/
theorem lower_bound_not_floored_witness :
    (calculateConfidenceIntervals [(5:ℚ)]).lowerBound.getD 0 0 = -(24/5) ∧
    (calculateConfidenceIntervals [(5:ℚ)]).lowerBound.getD 0 0 < 0 := by
  have h := lower_bound_not_floored [(5:ℚ)] 0 (by norm_num)
  constructor
  · rw [h.1]; norm_num
  · exact h.2 (by norm_num)

/-- **C6** counterexample: for the window `[0,0,0,0,0,0,7]` (w = 7, i = 6) the
pandas rolling standard deviation squared is the sample variance `42/6 = 7`,
while the population variance of the same window is `42/7 = 6`.  Since a
standard deviation is the square root of its variance and the square root is
injective on nonnegatives, `√7 ≠ √6`: the rolling standard deviation the code
computes is NOT the population standard deviation the claim states. -/
theorem rolling_std_population_cex :
    rollingVar [0,0,0,0,0,0,7] 7 6 = some 7 ∧
    populationVar (windowSlice [0,0,0,0,0,0,7] 7 6) = 6 ∧
    (7:ℚ) ≠ 6 := by
  refine ⟨?_, ?_, by norm_num⟩
  · norm_num [rollingVar, sampleVar, windowSlice, mean]
  · norm_num [populationVar, windowSlice, mean]

/-- **C6** (amended): for every window `w ≥ 2` (in particular 7, 14, 30), the
rolling mean at index `i` is defined iff `w - 1 ≤ i < length` and equals the
arithmetic mean of `value[i-w+1..i]`; the rolling standard deviation is
defined on the same indices but is the SAMPLE standard deviation (`ddof = 1`,
divisor `w - 1`) of that window, not the population standard deviation. -/
theorem rolling_window_features (xs : List ℚ) (w i : ℕ) (hw : 2 ≤ w) :
    ((rollingMean xs w i).isSome ↔ (w - 1 ≤ i ∧ i < xs.length)) ∧
    ((rollingVar xs w i).isSome ↔ (w - 1 ≤ i ∧ i < xs.length)) ∧
    (w - 1 ≤ i → i < xs.length →
      rollingMean xs w i = some (mean (windowSlice xs w i)) ∧
      rollingVar xs w i = some (sampleVar (windowSlice xs w i)) ∧
      (windowSlice xs w i).length = w ∧
      windowSlice xs w i = (xs.drop (i + 1 - w)).take w) := by
  refine ⟨?_, ?_, ?_⟩
  · simp only [rollingMean]
    split_ifs with hc <;> simp <;> omega
  · simp only [rollingVar]
    split_ifs with hc <;> simp <;> omega
  · intro h1 h2
    have hc : w ≤ i + 1 ∧ i < xs.length := by omega
    refine ⟨by rw [rollingMean, if_pos hc], by rw [rollingVar, if_pos ⟨hw, hc⟩], ?_, ?_⟩
    · simp only [windowSlice, List.length_drop, List.length_take]
      omega
    · rw [windowSlice, List.drop_take]
      have : i + 1 - (i + 1 - w) = w := by omega
      rw [this]

/-- Witness for the amended C6 at `[1,2,3,4,5,6,7]`, window 7: rolling mean
`4` and sample variance `28/6 = 14/3` at index 6, undefined at index 5. -/
theorem rolling_window_features_witness :
    rollingMean [1,2,3,4,5,6,7] 7 6 = some 4 ∧
    rollingVar [1,2,3,4,5,6,7] 7 6 = some (14/3) ∧
    rollingMean [1,2,3,4,5,6,7] 7 5 = none := by
  have h := rolling_window_features [1,2,3,4,5,6,7] 7 6 (by norm_num)
  have h6 := h.2.2 (by norm_num) (by norm_num)
  refine ⟨h6.1.trans (by norm_num [windowSlice, mean]),
    h6.2.1.trans (by norm_num [windowSlice, sampleVar, mean]), ?_⟩
  have h5 := (rolling_window_features [1,2,3,4,5,6,7] 7 5 (by norm_num)).1
  cases hm : rollingMean [1,2,3,4,5,6,7] 7 5 with
  | none => rfl
  | some v =>
    exfalso
    have : (7:ℕ) - 1 ≤ 5 ∧ 5 < ([1,2,3,4,5,6,7] : List ℚ).length :=
      h5.mp (by rw [hm]; rfl)
    omega

/-- **C7** counterexample: `_predict_with_random_forest` is not a pure
function of (features, horizon): the features argument is ignored and each day
draws `np.random.normal(5, 8)` from the advancing global numpy RNG, so two
invocations with identical features and horizon but different RNG states
(here: the day-0 draw being 0 versus 1) return different point predictions. -/
theorem forecast_determinism_cex :
    predictWithRandomForest 1 (fun _ => 0) ≠ predictWithRandomForest 1 (fun _ => 1) ∧
    (predictWithRandomForest 1 (fun _ => 0)).predictions = some [95] ∧
    (predictWithRandomForest 1 (fun _ => 1)).predictions = some [96] := by
  refine ⟨?_, ?_, ?_⟩ <;> norm_num [predictWithRandomForest, List.range_succ, max_def]

/-- **C7** (amended): the forecasting functions are pure in (horizon, RNG
draws): whenever two random streams agree on the draws for days
`0 .. days - 1`, each generator and the ensemble combiner produce identical
outputs.  Determinism over (features, horizon) alone fails, because the
generators consume the global RNG. -/
theorem forecast_determinism (days : ℕ) (z1 z2 : ℕ → ℚ)
    (h : ∀ d, d < days → z1 d = z2 d) :
    predictWithLSTM days z1 = predictWithLSTM days z2 ∧
    predictWithRandomForest days z1 = predictWithRandomForest days z2 ∧
    predictWithGradientBoosting days z1 = predictWithGradientBoosting days z2 ∧
    ∀ fs : List GenResult,
      createEnsembleForecast fs days z1 = createEnsembleForecast fs days z2 := by
  have hmap : ∀ base : ℚ,
      (List.range days).map (fun d => max (base + z1 d) 0) =
        (List.range days).map (fun d => max (base + z2 d) 0) := by
    intro base
    apply List.map_congr_left
    intro a ha
    rw [h a (List.mem_range.mp ha)]
  refine ⟨?_, ?_, ?_, ?_⟩
  · simp only [predictWithLSTM, hmap]
  · simp only [predictWithRandomForest, hmap]
  · simp only [predictWithGradientBoosting, hmap]
  · intro fs
    simp only [createEnsembleForecast]
    split_ifs with hc
    · apply List.map_congr_left
      intro a ha
      rw [h a (List.mem_range.mp ha)]
    · rfl

/-- Witness for the amended C7: two streams that agree on day 0 (the only day
consumed for a one-day horizon) give identical random-forest outputs. -/
theorem forecast_determinism_witness :
    predictWithRandomForest 1 (fun _ => (2:ℚ)) =
      predictWithRandomForest 1 (fun d => if d = 0 then 2 else 99) :=
  (forecast_determinism 1 (fun _ => (2:ℚ)) (fun d => if d = 0 then 2 else 99)
    (by
      intro d hd
      have hd0 : d = 0 := by omega
      simp [hd0])).2.1

/-- **C8** (risk-level bucketing): the composite score is bucketed LOW below
25, MEDIUM in [25, 50), HIGH in [50, 75), CRITICAL at 75 and above, and the
bucket is monotone in the score: a smaller score never gets a higher risk
level. -/
theorem risk_level_bucketing :
    (∀ s : ℚ, s < 25 → determineRiskLevel s = RiskLevel.low) ∧
    (∀ s : ℚ, 25 ≤ s → s < 50 → determineRiskLevel s = RiskLevel.medium) ∧
    (∀ s : ℚ, 50 ≤ s → s < 75 → determineRiskLevel s = RiskLevel.high) ∧
    (∀ s : ℚ, 75 ≤ s → determineRiskLevel s = RiskLevel.critical) ∧
    (∀ s1 s2 : ℚ, s1 < s2 →
      riskRank (determineRiskLevel s1) ≤ riskRank (determineRiskLevel s2)) := by
  refine ⟨?_, ?_, ?_, ?_, ?_⟩
  · intro s hs
    rw [determineRiskLevel, if_pos hs]
  · intro s h1 h2
    rw [determineRiskLevel, if_neg (by linarith), if_pos h2]
  · intro s h1 h2
    rw [determineRiskLevel, if_neg (by linarith), if_neg (by linarith), if_pos h2]
  · intro s h1
    rw [determineRiskLevel, if_neg (by linarith), if_neg (by linarith),
      if_neg (by linarith)]
  · intro s1 s2 hlt
    unfold determineRiskLevel
    split_ifs <;> simp [riskRank] <;> linarith

/-- Witness for C8: scores 10, 30, 60, 80 fall in the four buckets, and the
rank of the bucket at 10 is at most the rank at 80. -/
theorem risk_level_bucketing_witness :
    determineRiskLevel 10 = RiskLevel.low ∧
    determineRiskLevel 30 = RiskLevel.medium ∧
    determineRiskLevel 60 = RiskLevel.high ∧
    determineRiskLevel 80 = RiskLevel.critical ∧
    riskRank (determineRiskLevel 10) ≤ riskRank (determineRiskLevel 80) := by
  have h := risk_level_bucketing
  exact ⟨h.1 10 (by norm_num), h.2.1 30 (by norm_num) (by norm_num),
    h.2.2.1 60 (by norm_num) (by norm_num), h.2.2.2.1 80 (by norm_num),
    h.2.2.2.2 10 80 (by norm_num)⟩

end SupplyChain
